import Mathlib

/-!
Verification of the Model Arena orchestration of `agentuity/sdk-explorer`.

The embedding follows the source files:
* `src/agent/model-arena/types` (Provider, ModelResult, the Zod `JudgmentSchema`)
* `src/agent/model-arena/lib.ts` (`MODELS`, `generateStory`)
* `src/api/model-arena/route.ts` (the SSE `/stream` handler)
* the `model-arena` agent handler (non-streaming endpoint)

External effects (the `generateText` call per provider, the `generateObject`
judge call, wall-clock time, the nondeterministic settlement order of the
concurrent provider tasks) are passed in as explicit parameters, so each
run of the handler is a pure function of its environment.
-/

namespace Arena

/-- Tone options (`type Tone` in the types module). -/
inductive Tone
  | whimsical
  | sciFi
  | suspenseful
  | comedic
  deriving DecidableEq, Repr

/-- The statically-typed provider union (`PROVIDERS = ["openai", "anthropic"] as const`). -/
inductive Provider
  | openai
  | anthropic
  deriving DecidableEq, Repr

/-- The string form of a provider id, as it appears in JSON payloads. -/
def Provider.id : Provider → String
  | .openai => "openai"
  | .anthropic => "anthropic"

/-- Definition of `PROVIDERS` — the static enum the Zod schema validates provider strings against. -/
def PROVIDERS : List String := ["openai", "anthropic"]

/-- The `PROVIDER_DISPLAY_NAMES` record (keyed by the typed provider). -/
def PROVIDER_DISPLAY_NAMES : Provider → String
  | .openai => "OpenAI"
  | .anthropic => "Anthropic"

/-- Indexing `PROVIDER_DISPLAY_NAMES` with an arbitrary string key (a TS record
lookup yields `undefined` for a key outside the record). -/
def displayNameOf (p : String) : Option String :=
  if p = "openai" then some "OpenAI"
  else if p = "anthropic" then some "Anthropic"
  else none

/-- Structure `GenerationConfig` from `lib.ts`. -/
structure GenerationConfig where
  provider : Provider
  model : String
  deriving DecidableEq, Repr

/-- Definition of `MODELS` from `lib.ts`: the configured competitors. -/
def MODELS : List GenerationConfig :=
  [⟨Provider.openai, "gpt-5-nano"⟩, ⟨Provider.anthropic, "claude-haiku-4-5"⟩]

/-- Structure `ModelResult` from the types module. -/
structure ModelResult where
  provider : Provider
  model : String
  story : String
  generationMs : Nat
  tokens : Nat
  deriving DecidableEq, Repr

/-- Usage metadata on a `generateText` response; `totalTokens` may be absent
(the source reads it as `usage?.totalTokens ?? 0`). -/
structure Usage where
  totalTokens : Option Nat
  deriving DecidableEq, Repr

/-- The part of a `generateText` response that `generateStory` consumes:
the generated text and the (possibly absent) usage metadata. -/
structure GenerateTextResponse where
  text : String
  usage : Option Usage
  deriving DecidableEq, Repr

/-- Function `generateStory` from `lib.ts`, applied to the response of its single
`generateText` call and the measured wall-clock duration.  The token count is
`usage?.totalTokens ?? 0`. -/
def generateStory (config : GenerationConfig) (resp : GenerateTextResponse)
    (elapsedMs : Nat) : ModelResult :=
  { provider := config.provider
    model := config.model
    story := resp.text
    generationMs := elapsedMs
    tokens := (resp.usage.bind Usage.totalTokens).getD 0 }

/-! ### The Zod schema of the judge (`JudgmentSchema` in the types module)

The raw JSON output of the judge model is modelled with string provider fields and
unconstrained numeric scores; `judgmentSchemaValid` is exactly what the Zod
schema checks: `winner` and every `provider` field must lie in the static
`PROVIDERS` enum, `score` is `z.number()` (no bounds), `passed` is a boolean,
arrays have no length constraint. -/

/-- Raw entry of a `scores.creativity` / `scores.engagement` array
(`ProviderScoreSchema`). -/
structure RawProviderScore where
  provider : String
  score : ℚ
  reason : String
  deriving DecidableEq, Repr

/-- Raw entry of a `checks.toneMatch` / `checks.wordCount` array
(`ProviderBinarySchema`). -/
structure RawProviderBinary where
  provider : String
  passed : Bool
  reason : String
  deriving DecidableEq, Repr

/-- Raw `scores` object of a judgment. -/
structure RawScores where
  creativity : List RawProviderScore
  engagement : List RawProviderScore
  deriving DecidableEq, Repr

/-- Raw `checks` object of a judgment. -/
structure RawChecks where
  toneMatch : List RawProviderBinary
  wordCount : List RawProviderBinary
  deriving DecidableEq, Repr

/-- Raw judge output, before schema validation. -/
structure RawJudgment where
  winner : String
  reasoning : String
  scores : RawScores
  checks : RawChecks
  deriving DecidableEq, Repr

/-- Validation of one score entry: `z.enum(PROVIDERS)` on `provider`;
`score` and `reason` are unconstrained `z.number()` / `z.string()`. -/
def providerScoreValid (s : RawProviderScore) : Bool :=
  PROVIDERS.contains s.provider

/-- Validation of one check entry: `z.enum(PROVIDERS)` on `provider`. -/
def providerBinaryValid (b : RawProviderBinary) : Bool :=
  PROVIDERS.contains b.provider

/-- What `JudgmentSchema.parse` checks on the raw output of the judge model. -/
def judgmentSchemaValid (j : RawJudgment) : Bool :=
  PROVIDERS.contains j.winner
    && j.scores.creativity.all providerScoreValid
    && j.scores.engagement.all providerScoreValid
    && j.checks.toneMatch.all providerBinaryValid
    && j.checks.wordCount.all providerBinaryValid

/-- Behavior of `generateObject` with `JudgmentSchema`: the judge call either throws
(network / provider failure) or returns a raw object, which is then accepted
only if it satisfies the schema; an invalid object makes `generateObject`
throw as well. -/
def generateObjectJudge (call : Except String RawJudgment) :
    Except String RawJudgment :=
  match call with
  | .error m => .error m
  | .ok j =>
    if judgmentSchemaValid j then .ok j
    else .error "response did not match the judgment schema"

/-! ### The SSE `/stream` handler (`src/api/model-arena/route.ts`)

The handler writes: a `start` event; then, as each of the concurrent
per-provider tasks settles, either a `story` event (success) or an `error`
event carrying the id of that provider (failure); then, after `Promise.all`
resolves, a `judging` event; then it calls the judge and writes either a
`complete` event or a provider-less `error` event.  The settlement order of
the provider tasks is the nondeterministic input `arrival`. -/

/-- Entry of the `providers` array in the `start` event payload. -/
structure CompetitorInfo where
  provider : Provider
  displayName : String
  model : String
  deriving DecidableEq, Repr

/-- The SSE events written by the `/stream` handler, with their payload
fields.  A per-provider `error` event carries `provider`/`displayName`; the
judge-failure `error` event carries neither (both fields absent). -/
inductive SSEEvent
  | start (prompt : String) (tone : Tone) (providers : List CompetitorInfo)
  | story (provider : Provider) (displayName : String) (model : String)
      (storyText : String) (generationMs : Nat) (tokens : Nat)
  | errorEvt (provider : Option Provider) (displayName : Option String)
      (message : String)
  | judging (message : String)
  | complete (id : String) (judgment : RawJudgment)
      (winnerDisplayName : Option String)
  deriving DecidableEq, Repr

/-- Definition of `FIXED_PROMPT` from the route. -/
def FIXED_PROMPT : String := "A robot discovers it can dream"

/-- Definition of `FIXED_TONE` from the route. -/
def FIXED_TONE : Tone := Tone.sciFi

/-- The `start` event written first by the handler. -/
def startEvent : SSEEvent :=
  .start FIXED_PROMPT FIXED_TONE
    (MODELS.map fun m =>
      ⟨m.provider, PROVIDER_DISPLAY_NAMES m.provider, m.model⟩)

/-- The `judging` event written after all provider tasks settle. -/
def judgingEvent : SSEEvent :=
  .judging "All stories complete, judge evaluating..."

/-- The event a provider task writes when it settles: on success of its
`generateStory` call, a `story` event built from the `ModelResult`; on
failure, an `error` event carrying the provider id and display name. -/
def settleEvent (gen : GenerationConfig → Except String (GenerateTextResponse × Nat))
    (c : GenerationConfig) : SSEEvent :=
  match gen c with
  | .ok (resp, ms) =>
    let r := generateStory c resp ms
    .story r.provider (PROVIDER_DISPLAY_NAMES r.provider) r.model r.story
      r.generationMs r.tokens
  | .error m =>
    .errorEvt (some c.provider) (some (PROVIDER_DISPLAY_NAMES c.provider)) m

/-- The `results` array accumulated by the handler: each successful task
pushes its `ModelResult`, in settlement order. -/
def settledResults (gen : GenerationConfig → Except String (GenerateTextResponse × Nat))
    (arrival : List GenerationConfig) : List ModelResult :=
  arrival.filterMap fun c =>
    match gen c with
    | .ok (resp, ms) => some (generateStory c resp ms)
    | .error _ => none

/-- The terminal event: a `complete` event when the judge call succeeds
(its payload spreads the judgment and adds
`winnerDisplayName = PROVIDER_DISPLAY_NAMES[judgment.winner]`), and a
provider-less `error` event when it fails. -/
def terminalEvent (sessionId : String) (res : Except String RawJudgment) :
    SSEEvent :=
  match res with
  | .ok j => .complete sessionId j (displayNameOf j.winner)
  | .error m => .errorEvt none none ("Judge failed: " ++ m)

/-- The full event sequence written by one run of the `/stream` handler.
`gen` gives the outcome of each provider task, `arrival` the settlement
order of the tasks, `judgeCall` the response of the judge model to the
results it is shown.
The handler emits `start`, the settle events in arrival order, `judging`
(unconditionally — the route has no check on `results` being empty), then
the terminal event, after which the stream is closed. -/
def runStream (sessionId : String)
    (gen : GenerationConfig → Except String (GenerateTextResponse × Nat))
    (arrival : List GenerationConfig)
    (judgeCall : List ModelResult → Except String RawJudgment) :
    List SSEEvent :=
  startEvent ::
    (arrival.map (settleEvent gen) ++
      [judgingEvent,
        terminalEvent sessionId
          (generateObjectJudge (judgeCall (settledResults gen arrival)))])

/-! ### Event classifiers -/

/-- Is this the `start` event? -/
def SSEEvent.isStart : SSEEvent → Bool
  | .start _ _ _ => true
  | _ => false

/-- Is this an item-settled event (a `story` event or a per-provider
`error` event)? -/
def SSEEvent.isSettle : SSEEvent → Bool
  | .story _ _ _ _ _ _ => true
  | .errorEvt (some _) _ _ => true
  | _ => false

/-- Is this the `judging` event? -/
def SSEEvent.isJudging : SSEEvent → Bool
  | .judging _ => true
  | _ => false

/-- Is this a `complete` event? -/
def SSEEvent.isComplete : SSEEvent → Bool
  | .complete _ _ _ => true
  | _ => false

/-- Is this a fatal error event, i.e. an `error` event whose payload has no
`provider` field? -/
def SSEEvent.isFatal : SSEEvent → Bool
  | .errorEvt none _ _ => true
  | _ => false

/-- Is this a terminal event (`complete`, or the provider-less fatal
`error`)? -/
def SSEEvent.isTerminal : SSEEvent → Bool
  | .complete _ _ _ => true
  | .errorEvt none _ _ => true
  | _ => false

/-- The provider an item-settled event belongs to, if any. -/
def SSEEvent.settleProvider : SSEEvent → Option Provider
  | .story p _ _ _ _ _ => some p
  | .errorEvt (some p) _ _ => some p
  | _ => none

/-- The judgment carried by a `complete` event, if any. -/
def completeJudgment? : SSEEvent → Option RawJudgment
  | .complete _ j _ => some j
  | _ => none

/-- All judgments delivered by `complete` events of a stream. -/
def completeJudgments (ev : List SSEEvent) : List RawJudgment :=
  ev.filterMap completeJudgment?

/-! ### The non-streaming `model-arena` agent handler

The agent handler runs `Promise.all(MODELS.map(config => generateStory(...)))`
with no per-invocation error handling: the aggregate rejects as soon as any
generation rejects, and only if all succeed does it call the judge and return
`{id, results, judgment}`. -/

/-- The aggregate of the bare `Promise.all` over the per-provider
`generateStory` calls: all `ModelResult`s, or the failure of a rejected
generation. -/
def collectResults (gen : GenerationConfig → Except String (GenerateTextResponse × Nat)) :
    List GenerationConfig → Except String (List ModelResult)
  | [] => .ok []
  | c :: rest =>
    match gen c with
    | .error m => .error m
    | .ok (resp, ms) =>
      match collectResults gen rest with
      | .error m => .error m
      | .ok rs => .ok (generateStory c resp ms :: rs)

/-- The output object of the agent. -/
structure ArenaOutput where
  id : String
  results : List ModelResult
  judgment : RawJudgment
  deriving DecidableEq, Repr

/-- The `model-arena` agent handler: generate from all configured models via
`Promise.all`, then judge, then return `{id, results, judgment}`.  Any
exception propagates as a failure of the handler. -/
def arenaHandler (sessionId : String)
    (gen : GenerationConfig → Except String (GenerateTextResponse × Nat))
    (judgeCall : List ModelResult → Except String RawJudgment) :
    Except String ArenaOutput :=
  match collectResults gen MODELS with
  | .error m => .error m
  | .ok results =>
    match generateObjectJudge (judgeCall results) with
    | .error m => .error m
    | .ok judgment => .ok ⟨sessionId, results, judgment⟩

/-! ### Concrete environments used by counterexamples and witnesses -/

/-- Environment in which the generation call of every provider fails. -/
def failGen : GenerationConfig → Except String (GenerateTextResponse × Nat) :=
  fun _ => .error "network error"

/-- Environment in which the generation call of every provider succeeds. -/
def okGen : GenerationConfig → Except String (GenerateTextResponse × Nat) :=
  fun _ => .ok (⟨"a short story", some ⟨some 10⟩⟩, 50)

/-- Environment in which the OpenAI call fails and the Anthropic call
succeeds. -/
def mixedGen : GenerationConfig → Except String (GenerateTextResponse × Nat) :=
  fun c =>
    match c.provider with
    | .openai => .error "openai down"
    | .anthropic => .ok (⟨"story text", some ⟨some 42⟩⟩, 100)

/-- A judge output naming `openai` as winner, with empty score and check
arrays. -/
def okJudgment : RawJudgment :=
  { winner := "openai", reasoning := "solid narrative"
    scores := ⟨[], []⟩, checks := ⟨[], []⟩ }

/-- A judge output whose winner string lies outside the static provider
enum. -/
def badWinnerJudgment : RawJudgment :=
  { winner := "gemini", reasoning := "r"
    scores := ⟨[], []⟩, checks := ⟨[], []⟩ }

/-- A judge output with a score entry naming a provider outside the static
enum. -/
def badScoreJudgment : RawJudgment :=
  { winner := "openai", reasoning := "r"
    scores := ⟨[⟨"gemini", 1, "x"⟩], []⟩, checks := ⟨[], []⟩ }

/-- A judge output with scores outside the `[0,1]` interval. -/
def outOfRangeJudgment : RawJudgment :=
  { winner := "openai", reasoning := "r"
    scores := ⟨[⟨"openai", 2, "x"⟩, ⟨"anthropic", -1, "y"⟩], []⟩
    checks := ⟨[], []⟩ }

/-- A settlement order opposite to the request order of `MODELS`. -/
def revArrival : List GenerationConfig :=
  [⟨Provider.anthropic, "claude-haiku-4-5"⟩, ⟨Provider.openai, "gpt-5-nano"⟩]

/-! ### Helper lemmas about the event classifiers -/

theorem settleEvent_settleProvider (gen : GenerationConfig → Except String (GenerateTextResponse × Nat))
    (c : GenerationConfig) : (settleEvent gen c).settleProvider = some c.provider := by
  cases h : gen c with
  | error m => simp [settleEvent, h, SSEEvent.settleProvider]
  | ok p =>
    obtain ⟨resp, ms⟩ := p
    simp [settleEvent, h, SSEEvent.settleProvider, generateStory]

theorem settleEvent_isSettle (gen : GenerationConfig → Except String (GenerateTextResponse × Nat))
    (c : GenerationConfig) : (settleEvent gen c).isSettle = true := by
  cases h : gen c with
  | error m => simp [settleEvent, h, SSEEvent.isSettle]
  | ok p =>
    obtain ⟨resp, ms⟩ := p
    simp [settleEvent, h, SSEEvent.isSettle]

theorem settleEvent_isComplete (gen : GenerationConfig → Except String (GenerateTextResponse × Nat))
    (c : GenerationConfig) : (settleEvent gen c).isComplete = false := by
  cases h : gen c with
  | error m => simp [settleEvent, h, SSEEvent.isComplete]
  | ok p =>
    obtain ⟨resp, ms⟩ := p
    simp [settleEvent, h, SSEEvent.isComplete]

theorem settleEvent_isFatal (gen : GenerationConfig → Except String (GenerateTextResponse × Nat))
    (c : GenerationConfig) : (settleEvent gen c).isFatal = false := by
  cases h : gen c with
  | error m => simp [settleEvent, h, SSEEvent.isFatal]
  | ok p =>
    obtain ⟨resp, ms⟩ := p
    simp [settleEvent, h, SSEEvent.isFatal]

theorem settleEvent_completeJudgment (gen : GenerationConfig → Except String (GenerateTextResponse × Nat))
    (c : GenerationConfig) : completeJudgment? (settleEvent gen c) = none := by
  cases h : gen c with
  | error m => simp [settleEvent, h, completeJudgment?]
  | ok p =>
    obtain ⟨resp, ms⟩ := p
    simp [settleEvent, h, completeJudgment?]

theorem terminalEvent_settleProvider (sid : String) (res : Except String RawJudgment) :
    (terminalEvent sid res).settleProvider = none := by
  cases res <;> rfl

theorem terminalEvent_isTerminal (sid : String) (res : Except String RawJudgment) :
    (terminalEvent sid res).isTerminal = true := by
  cases res <;> rfl

theorem terminalEvent_completeJudgment (sid : String) (res : Except String RawJudgment) :
    completeJudgment? (terminalEvent sid res)
      = match res with
        | .ok j => some j
        | .error _ => none := by
  cases res <;> rfl

/-- Schema acceptance implies the winner string is in the static enum. -/
theorem judgmentSchemaValid_winner {j : RawJudgment}
    (h : judgmentSchemaValid j = true) : PROVIDERS.contains j.winner = true := by
  unfold judgmentSchemaValid at h
  simp only [Bool.and_eq_true] at h
  exact h.1.1.1.1

/-- A judgment returned by `generateObjectJudge` passed schema validation. -/
theorem generateObjectJudge_ok_valid {call : Except String RawJudgment}
    {j : RawJudgment} (h : generateObjectJudge call = Except.ok j) :
    judgmentSchemaValid j = true := by
  cases call with
  | error m => simp [generateObjectJudge] at h
  | ok j0 =>
    by_cases hv : judgmentSchemaValid j0 = true
    · simp [generateObjectJudge, hv] at h
      subst h
      exact hv
    · simp [generateObjectJudge, Bool.eq_false_iff.mpr hv] at h

/-! ### Helper lemmas about `runStream` -/

/-- The providers of the item-settled events of a run, in emission order, are
exactly the providers of the settlement order. -/
theorem runStream_settleProviders (sid : String)
    (gen : GenerationConfig → Except String (GenerateTextResponse × Nat))
    (arrival : List GenerationConfig)
    (judgeCall : List ModelResult → Except String RawJudgment) :
    (runStream sid gen arrival judgeCall).filterMap SSEEvent.settleProvider
      = arrival.map fun c => c.provider := by
  have hmid : ∀ l : List GenerationConfig,
      (l.map (settleEvent gen)).filterMap SSEEvent.settleProvider
        = l.map fun c => c.provider := by
    intro l
    induction l with
    | nil => rfl
    | cons c tl ih =>
      rw [List.map_cons, List.filterMap_cons, settleEvent_settleProvider,
        List.map_cons, ih]
  unfold runStream
  rw [List.filterMap_cons, List.filterMap_append, hmid, List.filterMap_cons,
    List.filterMap_cons, List.filterMap_nil, terminalEvent_settleProvider]
  simp [startEvent, judgingEvent, SSEEvent.settleProvider]

/-- The judgments delivered by `complete` events of a run are exactly the
accepted output of the judge call. -/
theorem completeJudgments_runStream (sid : String)
    (gen : GenerationConfig → Except String (GenerateTextResponse × Nat))
    (arrival : List GenerationConfig)
    (judgeCall : List ModelResult → Except String RawJudgment) :
    completeJudgments (runStream sid gen arrival judgeCall)
      = match generateObjectJudge (judgeCall (settledResults gen arrival)) with
        | .ok j => [j]
        | .error _ => [] := by
  have hmid : ∀ l : List GenerationConfig,
      (l.map (settleEvent gen)).filterMap completeJudgment? = [] := by
    intro l
    induction l with
    | nil => rfl
    | cons c tl ih =>
      rw [List.map_cons, List.filterMap_cons, settleEvent_completeJudgment, ih]
  unfold completeJudgments runStream
  rw [List.filterMap_cons, List.filterMap_append, hmid, List.filterMap_cons,
    List.filterMap_cons, List.filterMap_nil, terminalEvent_completeJudgment]
  cases generateObjectJudge (judgeCall (settledResults gen arrival)) <;> rfl

/-- A run contains a `complete` event exactly when the judge call is
accepted. -/
theorem runStream_any_isComplete (sid : String)
    (gen : GenerationConfig → Except String (GenerateTextResponse × Nat))
    (arrival : List GenerationConfig)
    (judgeCall : List ModelResult → Except String RawJudgment) :
    (runStream sid gen arrival judgeCall).any SSEEvent.isComplete
      = match generateObjectJudge (judgeCall (settledResults gen arrival)) with
        | .ok _ => true
        | .error _ => false := by
  have hmid : ∀ l : List GenerationConfig,
      (l.map (settleEvent gen)).any SSEEvent.isComplete = false := by
    intro l
    induction l with
    | nil => rfl
    | cons c tl ih =>
      rw [List.map_cons, List.any_cons, settleEvent_isComplete, ih]
      rfl
  unfold runStream
  rw [List.any_cons, List.any_append, hmid]
  cases h : generateObjectJudge (judgeCall (settledResults gen arrival)) with
  | ok j => simp [startEvent, judgingEvent, terminalEvent, SSEEvent.isComplete]
  | error m => simp [startEvent, judgingEvent, terminalEvent, SSEEvent.isComplete]

/-- The last event of a run is the terminal event. -/
theorem runStream_getLast (sid : String)
    (gen : GenerationConfig → Except String (GenerateTextResponse × Nat))
    (arrival : List GenerationConfig)
    (judgeCall : List ModelResult → Except String RawJudgment) :
    (runStream sid gen arrival judgeCall).getLast?
      = some (terminalEvent sid
          (generateObjectJudge (judgeCall (settledResults gen arrival)))) := by
  unfold runStream
  rw [show startEvent ::
        (arrival.map (settleEvent gen) ++
          [judgingEvent,
            terminalEvent sid
              (generateObjectJudge (judgeCall (settledResults gen arrival)))])
      = (startEvent :: (arrival.map (settleEvent gen) ++ [judgingEvent])) ++
          [terminalEvent sid
            (generateObjectJudge (judgeCall (settledResults gen arrival)))] by
      simp]
  exact List.getLast?_concat _

/-! ### Claims -/

/-- C1 (counterexample): in a run in which the generation call of every provider
fails — so zero `ModelResult`s exist — the coordinator nevertheless emits the
`judging` event, invokes the judge, emits a `complete` event when the judge
answers with a schema-valid judgment, and emits no fatal (provider-less)
error event.  This contradicts the claim that such a run emits a fatal
total-failure error, skips the judge, and emits neither `judging` nor
`complete`. -/
theorem C1_counterexample :
    settledResults failGen MODELS = [] ∧
    judgingEvent ∈ runStream "s" failGen MODELS (fun _ => Except.ok okJudgment) ∧
    (runStream "s" failGen MODELS
        (fun _ => Except.ok okJudgment)).any SSEEvent.isComplete = true ∧
    (runStream "s" failGen MODELS
        (fun _ => Except.ok okJudgment)).any SSEEvent.isFatal = false := by
  decide

/-- C1 (amended): when zero `ModelResult`s exist, the coordinator does not
emit a total-failure fatal error and does not skip judging: it emits the
`judging` event unconditionally, invokes the judge on the empty result list,
and the run ends with `complete` exactly when that judge call is accepted. -/
theorem C1_total_failure_proceeds_to_judging (sid : String)
    (gen : GenerationConfig → Except String (GenerateTextResponse × Nat))
    (arrival : List GenerationConfig)
    (judgeCall : List ModelResult → Except String RawJudgment)
    (hzero : settledResults gen arrival = []) :
    judgingEvent ∈ runStream sid gen arrival judgeCall ∧
    runStream sid gen arrival judgeCall
      = startEvent ::
          (arrival.map (settleEvent gen) ++
            [judgingEvent,
              terminalEvent sid (generateObjectJudge (judgeCall []))]) ∧
    ((runStream sid gen arrival judgeCall).any SSEEvent.isComplete = true ↔
      ∃ j, generateObjectJudge (judgeCall []) = Except.ok j) := by
  refine ⟨?_, ?_, ?_⟩
  · unfold runStream
    exact List.mem_cons_of_mem _
      (List.mem_append_right _ (List.mem_cons_self _ _))
  · unfold runStream
    rw [hzero]
  · rw [runStream_any_isComplete, hzero]
    cases h : generateObjectJudge (judgeCall []) with
    | ok j => simp [h]
    | error m => simp [h]

/-- C1 (witness). -/
theorem C1_witness :
    settledResults failGen MODELS = [] ∧
    (judgingEvent ∈ runStream "s" failGen MODELS (fun _ => Except.error "j") ∧
      runStream "s" failGen MODELS (fun _ => Except.error "j")
        = startEvent ::
            (MODELS.map (settleEvent failGen) ++
              [judgingEvent,
                terminalEvent "s"
                  (generateObjectJudge (Except.error "j"))]) ∧
      ((runStream "s" failGen MODELS
            (fun _ => Except.error "j")).any SSEEvent.isComplete = true ↔
        ∃ j, generateObjectJudge (Except.error "j") = Except.ok j)) :=
  ⟨by decide,
    C1_total_failure_proceeds_to_judging "s" failGen MODELS
      (fun _ => Except.error "j") (by decide)⟩

/-- C2 (counterexample): with OpenAI failed and Anthropic the only successful
provider, a judge response naming `openai` as winner passes schema validation
and is delivered in a `complete` event, even though `openai` is not among the
successful results.  This contradicts the claim that a winner outside the
successful set is rejected as a validation failure with no `complete`
event. -/
theorem C2_counterexample :
    (settledResults mixedGen MODELS).map (fun r => r.provider)
        = [Provider.anthropic] ∧
    okJudgment.winner = "openai" ∧
    completeJudgments
        (runStream "s" mixedGen MODELS (fun _ => Except.ok okJudgment))
      = [okJudgment] := by
  decide

/-- C2 (amended): the schema validates the winner only against the static
provider enum `PROVIDERS`, not against the successful results: every
judgment delivered by a `complete` event has its winner in `PROVIDERS`, and
a judge response whose winner lies outside `PROVIDERS` is rejected, so no
`complete` event is emitted; a winner naming a configured-but-failed
provider is accepted. -/
theorem C2_winner_static_enum (sid : String)
    (gen : GenerationConfig → Except String (GenerateTextResponse × Nat))
    (arrival : List GenerationConfig)
    (judgeCall : List ModelResult → Except String RawJudgment) :
    (∀ j ∈ completeJudgments (runStream sid gen arrival judgeCall),
        PROVIDERS.contains j.winner = true) ∧
    (∀ rj : RawJudgment, judgeCall (settledResults gen arrival) = Except.ok rj →
      PROVIDERS.contains rj.winner = false →
      (runStream sid gen arrival judgeCall).any SSEEvent.isComplete = false) := by
  constructor
  · intro j hj
    rw [completeJudgments_runStream] at hj
    cases h : generateObjectJudge (judgeCall (settledResults gen arrival)) with
    | ok j0 =>
      rw [h] at hj
      simp only [List.mem_singleton] at hj
      subst hj
      exact judgmentSchemaValid_winner (generateObjectJudge_ok_valid h)
    | error m =>
      rw [h] at hj
      simp at hj
  · intro rj h1 h2
    have hv : judgmentSchemaValid rj = false := by
      unfold judgmentSchemaValid
      rw [h2]
      simp
    rw [runStream_any_isComplete, h1]
    simp [generateObjectJudge, hv]

/-- C2 (witness). -/
theorem C2_witness :
    PROVIDERS.contains okJudgment.winner = true ∧
    (runStream "s" mixedGen MODELS
        (fun _ => Except.ok badWinnerJudgment)).any SSEEvent.isComplete = false :=
  ⟨(C2_winner_static_enum "s" mixedGen MODELS
      (fun _ => Except.ok okJudgment)).1 okJudgment (by decide),
    (C2_winner_static_enum "s" mixedGen MODELS
      (fun _ => Except.ok badWinnerJudgment)).2 badWinnerJudgment
        rfl (by decide)⟩

/-- C3 (counterexample): a successful generation whose response carries no
usage metadata and whose text has 8 characters yields a token count of 0,
not `8 / 4 = 2` as the character-length heuristic of the claim requires. -/
theorem C3_counterexample :
    (generateStory ⟨Provider.openai, "gpt-5-nano"⟩ ⟨"abcdabcd", none⟩ 5).tokens
        = 0 ∧
    ¬ ((generateStory ⟨Provider.openai, "gpt-5-nano"⟩ ⟨"abcdabcd", none⟩ 5).tokens
        = "abcdabcd".length / 4) := by
  decide

/-- C3 (amended): the token count of a successful `generateStory` call equals
the `usage.totalTokens` of the provider when that metadata is present, and is `0`
otherwise (the source reads `usage?.totalTokens ?? 0`; no character-length
estimate is performed). -/
theorem C3_token_fallback_zero (c : GenerationConfig)
    (resp : GenerateTextResponse) (ms : Nat) :
    (generateStory c resp ms).tokens
      = match resp.usage with
        | some u => u.totalTokens.getD 0
        | none => 0 := by
  cases h : resp.usage with
  | none => simp [generateStory, h]
  | some u => simp [generateStory, h]

/-- C4 (counterexample): with both providers successful, a judgment whose
score and check arrays are all empty — omitting every provider — passes
schema validation and the run emits a `complete` event, contradicting the
claim that an omitted provider makes the invocation raise `JudgeError`. -/
theorem C4_counterexample :
    (settledResults okGen MODELS).map (fun r => r.provider.id)
        = ["openai", "anthropic"] ∧
    okJudgment.scores.creativity = [] ∧
    okJudgment.checks.toneMatch = [] ∧
    judgmentSchemaValid okJudgment = true ∧
    (runStream "s" okGen MODELS
        (fun _ => Except.ok okJudgment)).any SSEEvent.isComplete = true := by
  decide

/-- C4 (amended): the schema checks only that each score/check entry names a
provider from the static enum `PROVIDERS` — an entry with an unknown
providerId fails validation — but it does not require that every provider in
the input results appears: a judgment whose score and check arrays are empty
is valid whenever its winner is in `PROVIDERS`. -/
theorem C4_schema_enum_only :
    (∀ j : RawJudgment, ∀ s ∈ j.scores.creativity,
        PROVIDERS.contains s.provider = false → judgmentSchemaValid j = false) ∧
    (∀ j : RawJudgment, ∀ b ∈ j.checks.toneMatch,
        PROVIDERS.contains b.provider = false → judgmentSchemaValid j = false) ∧
    (∀ w r : String, PROVIDERS.contains w = true →
        judgmentSchemaValid ⟨w, r, ⟨[], []⟩, ⟨[], []⟩⟩ = true) := by
  refine ⟨?_, ?_, ?_⟩
  · intro j s hs hbad
    have hall : j.scores.creativity.all providerScoreValid = false := by
      cases hv : j.scores.creativity.all providerScoreValid with
      | false => rfl
      | true =>
        have := List.all_eq_true.mp hv s hs
        rw [providerScoreValid, hbad] at this
        cases this
    simp [judgmentSchemaValid, hall]
  · intro j b hb hbad
    have hall : j.checks.toneMatch.all providerBinaryValid = false := by
      cases hv : j.checks.toneMatch.all providerBinaryValid with
      | false => rfl
      | true =>
        have := List.all_eq_true.mp hv b hb
        rw [providerBinaryValid, hbad] at this
        cases this
    simp [judgmentSchemaValid, hall]
  · intro w r h
    simp only [judgmentSchemaValid, List.all_nil, Bool.and_true]
    exact h

/-- C4 (witness). -/
theorem C4_witness :
    judgmentSchemaValid badScoreJudgment = false ∧
    judgmentSchemaValid ⟨"openai", "r", ⟨[], []⟩, ⟨[], []⟩⟩ = true :=
  ⟨C4_schema_enum_only.1 badScoreJudgment ⟨"gemini", 1, "x"⟩ (by decide)
      (by decide),
    C4_schema_enum_only.2.2 "openai" "r" (by decide)⟩

/-- C5 (counterexample): a judgment carrying a creativity score of `2` and
one of `-1` — both outside `[0,1]` — passes schema validation, contradicting
the claim that a score outside `[0,1]` fails schema validation. -/
theorem C5_counterexample :
    judgmentSchemaValid outOfRangeJudgment = true ∧
    (∃ s ∈ outOfRangeJudgment.scores.creativity,
        ¬(0 ≤ s.score ∧ s.score ≤ 1)) := by
  decide

/-- Replace every score value of a judgment using `f`, leaving all other
fields unchanged. -/
def mapScoreValues (f : ℚ → ℚ) (j : RawJudgment) : RawJudgment :=
  { j with scores :=
      ⟨j.scores.creativity.map (fun s => { s with score := f s.score }),
        j.scores.engagement.map (fun s => { s with score := f s.score })⟩ }

/-- C5 (amended): the schema places no constraint at all on the numeric score
values (`z.number()` is unbounded): schema validity is invariant under
replacing every score by an arbitrary rational. -/
theorem C5_scores_unbounded (j : RawJudgment) (f : ℚ → ℚ) :
    judgmentSchemaValid (mapScoreValues f j) = judgmentSchemaValid j := by
  have hc : ∀ l : List RawProviderScore,
      (l.map (fun s => { s with score := f s.score })).all providerScoreValid
        = l.all providerScoreValid := by
    intro l
    induction l with
    | nil => rfl
    | cons s tl ih =>
      rw [List.map_cons, List.all_cons, List.all_cons, ih]
      rfl
  simp only [judgmentSchemaValid, mapScoreValues, hc]

/-- C6: in every run whose settlement order is a permutation of the
configured `MODELS`, the providers of the item-settled events are, as a
multiset, exactly the configured providers — so each configured provider
contributes exactly one outcome (one `story` or one per-provider `error`
event), never zero and never two, and the providerIds appearing in outcomes
are a subset of and in the end equal to the configured ones. -/
theorem C6_one_outcome_per_provider (sid : String)
    (gen : GenerationConfig → Except String (GenerateTextResponse × Nat))
    (arrival : List GenerationConfig)
    (judgeCall : List ModelResult → Except String RawJudgment)
    (hperm : arrival.Perm MODELS) :
    ((runStream sid gen arrival judgeCall).filterMap
        SSEEvent.settleProvider).Perm (MODELS.map fun c => c.provider) ∧
    ∀ c ∈ MODELS,
      ((runStream sid gen arrival judgeCall).filterMap
          SSEEvent.settleProvider).count c.provider = 1 := by
  rw [runStream_settleProviders]
  refine ⟨hperm.map _, ?_⟩
  intro c hc
  rw [(hperm.map fun c => c.provider).count_eq]
  exact (by decide :
    ∀ c ∈ MODELS, ((MODELS.map fun c => c.provider).count c.provider) = 1) c hc

/-- C6 (witness). -/
theorem C6_witness :
    revArrival.Perm MODELS ∧
    (((runStream "s" okGen revArrival (fun _ => Except.ok okJudgment)).filterMap
        SSEEvent.settleProvider).Perm (MODELS.map fun c => c.provider) ∧
      ∀ c ∈ MODELS,
        ((runStream "s" okGen revArrival
            (fun _ => Except.ok okJudgment)).filterMap
            SSEEvent.settleProvider).count c.provider = 1) :=
  ⟨by decide,
    C6_one_outcome_per_provider "s" okGen revArrival
      (fun _ => Except.ok okJudgment) (by decide)⟩

/-- C7: every run decomposes as the `start` event first, then the
item-settled events (one per configured provider, in arbitrary settlement
order), then the `judging` event, then a single terminal event
(`complete` or a fatal error) last — after which no further event exists. -/
theorem C7_event_order (sid : String)
    (gen : GenerationConfig → Except String (GenerateTextResponse × Nat))
    (arrival : List GenerationConfig)
    (judgeCall : List ModelResult → Except String RawJudgment)
    (hperm : arrival.Perm MODELS) :
    ∃ settled term,
      runStream sid gen arrival judgeCall
        = startEvent :: (settled ++ [judgingEvent, term]) ∧
      settled.all SSEEvent.isSettle = true ∧
      term.isTerminal = true ∧
      ∀ c ∈ MODELS,
        (settled.filterMap SSEEvent.settleProvider).count c.provider = 1 := by
  refine ⟨arrival.map (settleEvent gen),
    terminalEvent sid
      (generateObjectJudge (judgeCall (settledResults gen arrival))),
    rfl, ?_, terminalEvent_isTerminal _ _, ?_⟩
  · rw [List.all_eq_true]
    intro e he
    obtain ⟨c, _, rfl⟩ := List.mem_map.mp he
    exact settleEvent_isSettle gen c
  · intro c hc
    have hmid : ∀ l : List GenerationConfig,
        (l.map (settleEvent gen)).filterMap SSEEvent.settleProvider
          = l.map fun c => c.provider := by
      intro l
      induction l with
      | nil => rfl
      | cons c0 tl ih =>
        rw [List.map_cons, List.filterMap_cons, settleEvent_settleProvider,
          List.map_cons, ih]
    rw [hmid, (hperm.map fun c => c.provider).count_eq]
    exact (by decide :
      ∀ c ∈ MODELS, ((MODELS.map fun c => c.provider).count c.provider) = 1) c hc

/-- C7 (witness). -/
theorem C7_witness :
    revArrival.Perm MODELS ∧
    ∃ settled term,
      runStream "s" okGen revArrival (fun _ => Except.ok okJudgment)
        = startEvent :: (settled ++ [judgingEvent, term]) ∧
      settled.all SSEEvent.isSettle = true ∧
      term.isTerminal = true ∧
      ∀ c ∈ MODELS,
        (settled.filterMap SSEEvent.settleProvider).count c.provider = 1 :=
  ⟨by decide,
    C7_event_order "s" okGen revArrival (fun _ => Except.ok okJudgment)
      (by decide)⟩

/-- C8: a failed generation call is caught in its own task and isolated to a
per-provider `error` event; it never aborts the other providers — every
settle event of every configured provider still appears in the stream — and the
coordinator still proceeds to the `judging` event only after all have
settled (it never fails fast on the first rejection). -/
theorem C8_failure_isolated (sid : String)
    (gen : GenerationConfig → Except String (GenerateTextResponse × Nat))
    (arrival : List GenerationConfig)
    (judgeCall : List ModelResult → Except String RawJudgment)
    (c0 : GenerationConfig) (m : String)
    (hperm : arrival.Perm MODELS) (hc0 : gen c0 = Except.error m) :
    settleEvent gen c0
        = SSEEvent.errorEvt (some c0.provider)
            (some (PROVIDER_DISPLAY_NAMES c0.provider)) m ∧
    (∀ c ∈ MODELS, settleEvent gen c ∈ runStream sid gen arrival judgeCall) ∧
    judgingEvent ∈ runStream sid gen arrival judgeCall := by
  refine ⟨?_, ?_, ?_⟩
  · unfold settleEvent
    rw [hc0]
  · intro c hc
    have hca : c ∈ arrival := hperm.mem_iff.mpr hc
    exact List.mem_cons_of_mem _
      (List.mem_append_left _ (List.mem_map_of_mem _ hca))
  · exact List.mem_cons_of_mem _
      (List.mem_append_right _ (List.mem_cons_self _ _))

/-- C8 (witness). -/
theorem C8_witness :
    revArrival.Perm MODELS ∧
    mixedGen ⟨Provider.openai, "gpt-5-nano"⟩ = Except.error "openai down" ∧
    (settleEvent mixedGen ⟨Provider.openai, "gpt-5-nano"⟩
        = SSEEvent.errorEvt (some Provider.openai) (some "OpenAI")
            "openai down" ∧
      (∀ c ∈ MODELS, settleEvent mixedGen c ∈
          runStream "s" mixedGen revArrival (fun _ => Except.ok okJudgment)) ∧
      judgingEvent ∈
        runStream "s" mixedGen revArrival (fun _ => Except.ok okJudgment)) :=
  ⟨by decide, rfl,
    C8_failure_isolated "s" mixedGen revArrival (fun _ => Except.ok okJudgment)
      ⟨Provider.openai, "gpt-5-nano"⟩ "openai down" (by decide) rfl⟩

/-- C9: when the judge call fails (call failure or schema-validation
failure), the last event of the run is an `error` event whose payload carries no
provider field, no `complete` event is ever emitted, and every other fatal
(provider-less) error event of the stream coincides with that terminal one —
so the judge failure is distinguishable from per-provider errors by the
absence of a providerId. -/
theorem C9_judge_failure_fatal (sid : String)
    (gen : GenerationConfig → Except String (GenerateTextResponse × Nat))
    (arrival : List GenerationConfig)
    (judgeCall : List ModelResult → Except String RawJudgment) (m : String)
    (h : generateObjectJudge (judgeCall (settledResults gen arrival))
        = Except.error m) :
    (runStream sid gen arrival judgeCall).getLast?
        = some (SSEEvent.errorEvt none none ("Judge failed: " ++ m)) ∧
    (runStream sid gen arrival judgeCall).any SSEEvent.isComplete = false ∧
    ∀ e ∈ runStream sid gen arrival judgeCall, e.isFatal = true →
      e = SSEEvent.errorEvt none none ("Judge failed: " ++ m) := by
  refine ⟨?_, ?_, ?_⟩
  · rw [runStream_getLast, h]
    rfl
  · rw [runStream_any_isComplete, h]
  · intro e he hf
    unfold runStream at he
    rcases List.mem_cons.mp he with rfl | he1
    · cases hf
    rcases List.mem_append.mp he1 with he2 | he3
    · obtain ⟨c, _, rfl⟩ := List.mem_map.mp he2
      rw [settleEvent_isFatal] at hf
      cases hf
    rcases List.mem_cons.mp he3 with rfl | he4
    · cases hf
    rcases List.mem_cons.mp he4 with rfl | he5
    · rw [h]
      rfl
    · cases he5

/-- C9 (witness). -/
theorem C9_witness :
    generateObjectJudge
        ((fun _ : List ModelResult => Except.error "boom")
          (settledResults okGen MODELS))
      = Except.error "boom" ∧
    ((runStream "s" okGen MODELS (fun _ => Except.error "boom")).getLast?
        = some (SSEEvent.errorEvt none none ("Judge failed: " ++ "boom")) ∧
      (runStream "s" okGen MODELS
          (fun _ => Except.error "boom")).any SSEEvent.isComplete = false ∧
      ∀ e ∈ runStream "s" okGen MODELS (fun _ => Except.error "boom"),
        e.isFatal = true →
        e = SSEEvent.errorEvt none none ("Judge failed: " ++ "boom")) :=
  ⟨rfl,
    C9_judge_failure_fatal "s" okGen MODELS (fun _ => Except.error "boom")
      "boom" rfl⟩

/-- C10: the non-streaming agent handler runs the per-provider generations
under a bare `Promise.all` with no per-invocation error handling, so when
the generation of any configured provider fails the whole handler fails: it
returns an error (no results for the providers that succeeded) and its
outcome does not depend on the judge at all — no judge call is made. -/
theorem C10_agent_promise_all_fails_whole (sid : String)
    (gen : GenerationConfig → Except String (GenerateTextResponse × Nat))
    (judgeCall : List ModelResult → Except String RawJudgment)
    (c0 : GenerationConfig) (m : String)
    (hc0mem : c0 ∈ MODELS) (hc0 : gen c0 = Except.error m) :
    (∃ m2, arenaHandler sid gen judgeCall = Except.error m2) ∧
    ∀ jc2 : List ModelResult → Except String RawJudgment,
      arenaHandler sid gen judgeCall = arenaHandler sid gen jc2 := by
  have hcoll : ∃ m2, collectResults gen MODELS = Except.error m2 := by
    simp only [ MODELS, List.mem_cons, List.not_mem_nil, or_false] at hc0mem
    rcases hc0mem with rfl | rfl
    · exact ⟨m, by simp [collectResults, MODELS, hc0]⟩
    · cases hA : gen ⟨Provider.openai, "gpt-5-nano"⟩ with
      | error mA => exact ⟨mA, by simp [collectResults, MODELS, hA]⟩
      | ok p =>
        obtain ⟨resp, ms⟩ := p
        exact ⟨m, by simp [collectResults, MODELS, hA, hc0]⟩
  obtain ⟨m2, hm2⟩ := hcoll
  constructor
  · exact ⟨m2, by simp [arenaHandler, hm2]⟩
  · intro jc2
    simp [arenaHandler, hm2]

/-- C10 (witness). -/
theorem C10_witness :
    (⟨Provider.openai, "gpt-5-nano"⟩ : GenerationConfig) ∈ MODELS ∧
    mixedGen ⟨Provider.openai, "gpt-5-nano"⟩ = Except.error "openai down" ∧
    ((∃ m2, arenaHandler "s" mixedGen (fun _ => Except.ok okJudgment)
        = Except.error m2) ∧
      ∀ jc2 : List ModelResult → Except String RawJudgment,
        arenaHandler "s" mixedGen (fun _ => Except.ok okJudgment)
          = arenaHandler "s" mixedGen jc2) :=
  ⟨by decide, rfl,
    C10_agent_promise_all_fails_whole "s" mixedGen
      (fun _ => Except.ok okJudgment) ⟨Provider.openai, "gpt-5-nano"⟩
      "openai down" (by decide) rfl⟩

end Arena
